import Mathlib

/-!
Verification of the Task Management System backend's authentication and task
controllers (`src/controllers/user.controller.js`, `src/controllers/task.controller.js`).

The controllers are shallowly embedded as pure Lean functions over an explicit
record-store state.  Asynchronous database calls become explicit state passing;
a thrown `ApiError(status, message)` becomes an `Except.error` carrying the same
status code and message.  The user model (`user.model.js`: token minting with
`jsonwebtoken` and password hashing with bcrypt) and the small utils are not
part of the provided sources, so the Token Codec and Credential Verifier are
modelled from the spec (sections 4.1 and 4.2), as marked on each definition.

The controller file contains two variants of each handler (two revisions of the
same file); definitions carrying a `V2` suffix embed the second variant.
-/

namespace TaskMgmt

/-- Token class carried by a signed token: access or refresh.  In the source
the two classes are distinguished by being signed with two different secrets
(`ACCESS_TOKEN_SECRET` / `REFRESH_TOKEN_SECRET`); the spec models this as a
class field checked by the codec. -/
inductive TokenClass where
  | access
  | refresh
deriving DecidableEq

/-- Modelled from the spec (section 3, Token): a signed token is a value object
`subject, class, issued_at, expires_at, signature`.  The signature is modelled
by recording the signing key; a token verifies under a codec configuration iff
its `key` equals the configuration's signing key.  JWT serialization is
injective on the payload, so byte-for-byte string equality of serialized tokens
is modelled by decidable equality of these records. -/
structure Token where
  subject : Nat
  tclass : TokenClass
  issued_at : Nat
  expires_at : Nat
  key : Nat
deriving DecidableEq

/-- Modelled from the spec (section 4.2): codec configuration
`access_ttl, refresh_ttl, signing_key`. -/
structure CodecConfig where
  accessTtl : Nat
  refreshTtl : Nat
  signingKey : Nat
deriving DecidableEq

/-- TTL per token class (spec section 4.2). -/
def CodecConfig.ttl (cfg : CodecConfig) : TokenClass → Nat
  | .access => cfg.accessTtl
  | .refresh => cfg.refreshTtl

/-- Modelled from the spec (section 4.2), since `user.model.js` with
`generateAccessToken` / `generateRefreshToken` is not among the provided
sources: `mint(subject, class, now)` produces a signed token with
`issued_at = now` and `expires_at = now + ttl(class)`. -/
def mint (cfg : CodecConfig) (subject : Nat) (cls : TokenClass) (now : Nat) : Token :=
  { subject := subject
    tclass := cls
    issued_at := now
    expires_at := now + cfg.ttl cls
    key := cfg.signingKey }

/-- Validation outcomes of the Token Codec (spec section 4.2). -/
inductive TokenError where
  | malformed
  | expired
  | wrongClass
deriving DecidableEq

/-- Modelled from the spec (section 4.2): `validate(serialized, expected_class,
now)` fails `Malformed` if the signature does not verify, `Expired` if
`now > expires_at`, `WrongClass` on a class mismatch, and otherwise returns the
decoded token.  This is the behavior of `jwt.verify` in the source, with the
class check realized there by the per-class signing secrets. -/
def validate (cfg : CodecConfig) (tok : Token) (expected : TokenClass) (now : Nat) :
    Except TokenError Token :=
  if tok.key ≠ cfg.signingKey then .error .malformed
  else if now > tok.expires_at then .error .expired
  else if tok.tclass ≠ expected then .error .wrongClass
  else .ok tok

/-- `ApiError(statusCode, message)` from the source's error utility: every
thrown controller error carries an HTTP status code and a message, and these
are what a caller observes. -/
structure ApiError where
  statusCode : Nat
  message : String
deriving DecidableEq

/-- Results of the embedded handlers are `Except` values; equality of results
is decidable, so concrete runs can be settled by evaluation. -/
instance instDecEqExcept {α β : Type} [DecidableEq α] [DecidableEq β] :
    DecidableEq (Except α β) := fun x y =>
  match x, y with
  | .error a, .error b =>
      if h : a = b then .isTrue (congrArg Except.error h)
      else .isFalse (fun he => h (Except.error.inj he))
  | .ok a, .ok b =>
      if h : a = b then .isTrue (congrArg Except.ok h)
      else .isFalse (fun he => h (Except.ok.inj he))
  | .error _, .ok _ => .isFalse (fun he => Except.noConfusion he)
  | .ok _, .error _ => .isFalse (fun he => Except.noConfusion he)

/-- JavaScript's `String.prototype.trim()`: strip leading and trailing
whitespace.  Written over the character list so that concrete runs reduce
inside the kernel. -/
def trimStr (s : String) : String :=
  ⟨((s.data.dropWhile Char.isWhitespace).reverse.dropWhile Char.isWhitespace).reverse⟩

/-- JavaScript's `String.prototype.toLowerCase()` on the ASCII usernames this
code handles, written over the character list. -/
def toLowerStr (s : String) : String :=
  ⟨s.data.map Char.toLower⟩

/-- Modelled from the spec (section 4.1), since the bcrypt pre-save hook lives
in the missing `user.model.js`: a salted one-way hash, abstracted as an
injective tagging function.  Verification compares the stored hash with the
hash of the candidate. -/
def hashPassword (plaintext : String) : String := "bcrypt$" ++ plaintext

/-- Modelled from the spec (section 4.1): `user.isPasswordCorrect(candidate)`
checks the candidate plaintext against the stored hash. -/
def isPasswordCorrect (stored : String) (candidate : String) : Bool :=
  stored == hashPassword candidate

/-- A user document.  `password` holds the hashed credential; `refreshToken`
is the single stored refresh-token field (`undefined` after `$unset` is
modelled as `none`). -/
structure UserRec where
  id : Nat
  email : String
  username : String
  fullName : String
  password : String
  refreshToken : Option Token
deriving DecidableEq

/-- The user collection of the record store. -/
abbrev UserStore := List UserRec

/-- `User.findById(id)` (also `User.findOne(id)` in
`generateAccessAndRefreshToken`): lookup by document id. -/
def findById (st : UserStore) (uid : Nat) : Option UserRec :=
  st.find? (fun u => u.id == uid)

/-- `User.findOne({ username })`. -/
def findByUsername (st : UserStore) (uname : String) : Option UserRec :=
  st.find? (fun u => u.username == uname)

/-- A single-document update (`user.save()` after mutating a fetched document,
or `User.findByIdAndUpdate`): rewrite the document with the given id.  Document
ids are unique in MongoDB, so updating every match coincides with updating the
single match. -/
def updateById (st : UserStore) (uid : Nat) (f : UserRec → UserRec) : UserStore :=
  st.map (fun u => if u.id == uid then f u else u)

/-- `user.refreshToken = tok` (with `none` for the `$unset` update). -/
def setRefreshToken (tok : Option Token) (u : UserRec) : UserRec :=
  { u with refreshToken := tok }

/-- `user.password = p` followed by the hashing pre-save hook. -/
def setPassword (p : String) (u : UserRec) : UserRec :=
  { u with password := p }

/-- `generateAccessAndRefreshToken(userId)` (user.controller.js lines 8-28,
identical in both variants): fetch the user, mint an access and a refresh
token, store the refresh token on the user document, and return the pair.  Any
internal failure (user not found) is caught and rethrown as a 500. -/
def generateAccessAndRefreshToken (cfg : CodecConfig) (st : UserStore) (userId : Nat)
    (now : Nat) : UserStore × Except ApiError (Token × Token) :=
  match findById st userId with
  | none =>
      (st, .error ⟨500, "Something went wrong while generating refresh and access token"⟩)
  | some _ =>
      let accessToken := mint cfg userId .access now
      let refreshToken := mint cfg userId .refresh now
      (updateById st userId (setRefreshToken (some refreshToken)),
       .ok (accessToken, refreshToken))

/-- The token pair a successful login returns (spec section 3, Auth Result). -/
structure AuthResult where
  accessToken : Token
  refreshToken : Token
deriving DecidableEq

/-- `loginUser` (first variant, user.controller.js lines 81-143): looks the
account up by username, then verifies the password.  A missing account fails
with 401 "Invalid username or password"; a wrong password fails with 401
"Invalid Credentials".  On success it mints and stores a fresh token pair. -/
def loginUser (cfg : CodecConfig) (st : UserStore) (username password : String)
    (now : Nat) : UserStore × Except ApiError AuthResult :=
  if username = "" ∨ password = "" then
    (st, .error ⟨400, "Please provide username and password"⟩)
  else if trimStr username = "" ∨ trimStr password = "" then
    (st, .error ⟨400, "Please fill all the fields"⟩)
  else
    match findByUsername st username with
    | none => (st, .error ⟨401, "Invalid username or password"⟩)
    | some user =>
        if !isPasswordCorrect user.password password then
          (st, .error ⟨401, "Invalid Credentials"⟩)
        else
          match generateAccessAndRefreshToken cfg st user.id now with
          | (st2, .error e) => (st2, .error e)
          | (st2, .ok (a, r)) => (st2, .ok ⟨a, r⟩)

/-- `logoutUser` (lines 146-179, identical in both variants): fetch the user
(401 if missing), then `$unset` the stored refresh token. -/
def logoutUser (st : UserStore) (userId : Nat) : UserStore × Except ApiError Unit :=
  match findById st userId with
  | none => (st, .error ⟨401, "User not found"⟩)
  | some _ =>
      (updateById st userId (setRefreshToken none), .ok ())

/-- What the refresh endpoint returns.  `refreshToken` is an `Option` because
the second variant's body field (`newRefreshToken`) is `undefined` (see
`refreshAccessTokenV2`). -/
structure RefreshResponse where
  accessToken : Token
  refreshToken : Option Token
deriving DecidableEq

/-- The read-and-check phase of `refreshAccessToken` (first variant, lines
194-206): `jwt.verify` on the presented token, `User.findById` on the decoded
subject, then the byte-for-byte reuse check against the stored refresh token.
Returns the user id to refresh for.  The codec-failure message mirrors the
rethrow `ApiError(401, error.message)` of the surrounding catch. -/
def refreshCheck (cfg : CodecConfig) (st : UserStore) (incomingRefreshToken : Token)
    (now : Nat) : Except ApiError Nat :=
  match validate cfg incomingRefreshToken .refresh now with
  | .error .expired => .error ⟨401, "jwt expired"⟩
  | .error _ => .error ⟨401, "invalid signature"⟩
  | .ok decodedToken =>
      match findById st decodedToken.subject with
      | none => .error ⟨401, "Invalid refresh token"⟩
      | some user =>
          if some incomingRefreshToken ≠ user.refreshToken then
            .error ⟨401, "Refresh token is expired or used"⟩
          else .ok user.id

/-- `refreshAccessToken` (first variant, lines 182-233): a missing token is a
401; otherwise run the read-and-check phase and, on success, mint-and-store a
new pair via `generateAccessAndRefreshToken` and return both new tokens. -/
def refreshAccessToken (cfg : CodecConfig) (st : UserStore) (incoming : Option Token)
    (now : Nat) : UserStore × Except ApiError RefreshResponse :=
  match incoming with
  | none => (st, .error ⟨401, "Unauthorized request"⟩)
  | some tok =>
      match refreshCheck cfg st tok now with
      | .error e => (st, .error e)
      | .ok uid =>
          match generateAccessAndRefreshToken cfg st uid now with
          | (st2, .error e) => (st2, .error e)
          | (st2, .ok (a, r)) => (st2, .ok ⟨a, some r⟩)

/-- The read-and-check phase of the second variant (lines 496-513); only the
error messages differ from the first variant. -/
def refreshCheckV2 (cfg : CodecConfig) (st : UserStore) (incomingRefreshToken : Token)
    (now : Nat) : Except ApiError Nat :=
  match validate cfg incomingRefreshToken .refresh now with
  | .error .expired => .error ⟨401, "Invalid refresh token jwt expired"⟩
  | .error _ => .error ⟨401, "Invalid refresh token invalid signature"⟩
  | .ok decodedToken =>
      match findById st decodedToken.subject with
      | none => .error ⟨401, "User not found"⟩
      | some user =>
          if some incomingRefreshToken ≠ user.refreshToken then
            .error ⟨401, "Invalid or expired refresh token"⟩
          else .ok user.id

/-- `refreshAccessToken` (second variant, lines 486-541).  On success the
source destructures `const { accessToken, newRefreshToken } = await
generateAccessAndRefreshToken(...)`, but that call returns an object whose
keys are `accessToken` and `refreshToken`, so `newRefreshToken` is `undefined`:
the newly minted refresh token is stored on the user document yet the response
cookie and body carry `undefined` instead of it.  The response's refresh-token
field is therefore `none` here. -/
def refreshAccessTokenV2 (cfg : CodecConfig) (st : UserStore) (incoming : Option Token)
    (now : Nat) : UserStore × Except ApiError RefreshResponse :=
  match incoming with
  | none => (st, .error ⟨401, "Please login to access this resource"⟩)
  | some tok =>
      match refreshCheckV2 cfg st tok now with
      | .error e => (st, .error e)
      | .ok uid =>
          match generateAccessAndRefreshToken cfg st uid now with
          | (st2, .error e) => (st2, .error e)
          | (st2, .ok (a, _)) => (st2, .ok ⟨a, none⟩)

/-- `changeUserPassword` (lines 236-261, identical in both variants): verify
the old password (401 on mismatch), reject `newPassword` equal to
`oldPassword` (400), otherwise store the re-hashed new password.  A missing
user would make `user.isPasswordCorrect` throw, surfacing as a 500. -/
def changeUserPassword (st : UserStore) (userId : Nat) (oldPassword newPassword : String) :
    UserStore × Except ApiError Unit :=
  match findById st userId with
  | none => (st, .error ⟨500, "Cannot read properties of null"⟩)
  | some user =>
      if !isPasswordCorrect user.password oldPassword then
        (st, .error ⟨401, "Invalid old password"⟩)
      else if oldPassword = newPassword then
        (st, .error ⟨400, "New password cannot be same as old password"⟩)
      else
        (updateById st userId (setPassword (hashPassword newPassword)), .ok ())

/-- The request body of `registerUser`; JSON fields may be absent, so every
field is an `Option`. -/
structure RegisterBody where
  email : Option String
  username : Option String
  fullName : Option String
  password : Option String
deriving DecidableEq

/-- Mirrors the per-field test `field?.trim() === ""` (lines 36-38): an absent
field short-circuits to `undefined`, which is not `""`, so only a present field
that trims to the empty string counts as blank. -/
def fieldBlank : Option String → Bool
  | some s => trimStr s == ""
  | none => false

/-- The required-fields validation of `registerUser` (lines 36-40):
`[email, username, fullName, password].some((field) => field?.trim() === "")`. -/
def registerValidationFails (body : RegisterBody) : Bool :=
  [body.email, body.username, body.fullName, body.password].any fieldBlank

/-- The duplicate check `User.findOne({ $or: [{ email }, { username }] })`
(line 43), tested against one stored user.  Stored usernames are canonicalized
to lower case on creation (line 51).  Modelled from the spec for the username
comparison (section 4.3: the check is case-insensitive on username): the
queried username is lowered before comparison, as the missing `user.model.js`
schema would do via a lowercase setter applied to query values.  An absent
field matches nothing. -/
def matchesEmailOrUsername (body : RegisterBody) (u : UserRec) : Bool :=
  (match body.email with
   | some e => u.email == e
   | none => false) ||
  (match body.username with
   | some n => u.username == toLowerStr (trimStr n)
   | none => false)

/-- The public projection `select("-password -refreshToken")` of a user. -/
structure PublicProfile where
  id : Nat
  email : String
  username : String
  fullName : String
deriving DecidableEq

/-- Drop the credential and session fields from a user document. -/
def toPublicProfile (u : UserRec) : PublicProfile :=
  ⟨u.id, u.email, u.username, u.fullName⟩

/-- The stages of `registerUser` after the required-fields validation (second
variant, lines 362-389): the duplicate check, then `User.create` with the
username trimmed and lowercased, then returning the created user's public
profile.  `freshId` is the store-assigned document id.  If a required field is
absent, `User.create` (or `username.trim()` itself) throws, surfacing as a
500; that branch is collapsed into a single internal error. -/
def registerAfterValidation (st : UserStore) (freshId : Nat) (body : RegisterBody) :
    UserStore × Except ApiError PublicProfile :=
  if st.any (matchesEmailOrUsername body) then
    (st, .error ⟨400, "User with email or username already exists"⟩)
  else
    match body.email, body.username, body.fullName, body.password with
    | some e, some n, some f, some p =>
        let newUser : UserRec := ⟨freshId, e, toLowerStr (trimStr n), f, hashPassword p, none⟩
        (newUser :: st, .ok (toPublicProfile newUser))
    | _, _, _, _ => (st, .error ⟨500, "Internal"⟩)

/-- `registerUser` (second variant, lines 351-389): the required-fields
validation followed by the post-validation stages. -/
def registerUser (st : UserStore) (freshId : Nat) (body : RegisterBody) :
    UserStore × Except ApiError PublicProfile :=
  if registerValidationFails body then
    (st, .error ⟨400, "Please fill all the fields"⟩)
  else registerAfterValidation st freshId body

/-- `registerUser` (first variant, lines 31-78).  Identical to the second
variant up to and including `User.create`, but the success response object
(lines 66-77) references `accessToken` and `refreshToken` — identifiers that
are never declared anywhere in this handler — so evaluating it raises
`ReferenceError: accessToken is not defined`, surfaced by the async handler as
a 500, after the account has already been created. -/
def registerUserV1 (st : UserStore) (freshId : Nat) (body : RegisterBody) :
    UserStore × Except ApiError PublicProfile :=
  if registerValidationFails body then
    (st, .error ⟨400, "Please fill all the fields"⟩)
  else if st.any (matchesEmailOrUsername body) then
    (st, .error ⟨400, "User with email or username already exists"⟩)
  else
    match body.email, body.username, body.fullName, body.password with
    | some e, some n, some f, some p =>
        let newUser : UserRec := ⟨freshId, e, toLowerStr (trimStr n), f, hashPassword p, none⟩
        (newUser :: st, .error ⟨500, "accessToken is not defined"⟩)
    | _, _, _, _ => (st, .error ⟨500, "Internal"⟩)

/-! ## Operation sequences over the session state (spec section 4.3)

`AuthOp` packages the four session-manager operations whose interplay the
single-refresh-token invariant is about; `runAuth` folds a sequence of them
over a store. -/

/-- One session-manager call: Login, Refresh, Logout or ChangePassword. -/
inductive AuthOp where
  | login (username password : String) (now : Nat)
  | refreshOp (incoming : Option Token) (now : Nat)
  | logoutOp (userId : Nat)
  | changePw (userId : Nat) (oldPassword newPassword : String)

/-- The store state after one operation (responses discarded). -/
def authStep (cfg : CodecConfig) (st : UserStore) : AuthOp → UserStore
  | .login u p n => (loginUser cfg st u p n).1
  | .refreshOp t n => (refreshAccessToken cfg st t n).1
  | .logoutOp uid => (logoutUser st uid).1
  | .changePw uid o n => (changeUserPassword st uid o n).1

/-- The store state after a sequence of operations. -/
def runAuth (cfg : CodecConfig) (st : UserStore) (ops : List AuthOp) : UserStore :=
  ops.foldl (authStep cfg) st

/-- A refresh token is accepted for an identity exactly when some stored user
document with that id holds it as its current refresh token — the reuse check
`incomingRefreshToken !== user.refreshToken` accepts nothing else. -/
def acceptsRefresh (st : UserStore) (uid : Nat) (tok : Token) : Bool :=
  st.any (fun u => u.id == uid && u.refreshToken == some tok)

/-- Document ids are pairwise distinct (MongoDB `_id` uniqueness). -/
def idsNodup (st : UserStore) : Prop :=
  (st.map (fun u => u.id)).Nodup

/-- Two `refreshAccessToken` calls for the same presented token, interleaved at
the source's await boundaries: both calls run the read-and-check phase (lines
194-206) against the same starting state before either call runs the write
inside `generateAccessAndRefreshToken` (lines 11-19).  When one check fails,
the failed call touches no state and the other proceeds alone.  Returns the
final store and the two responses. -/
def refreshInterleaved (cfg : CodecConfig) (st : UserStore) (incoming : Token)
    (nowA nowB : Nat) :
    UserStore × Except ApiError RefreshResponse × Except ApiError RefreshResponse :=
  match refreshCheck cfg st incoming nowA with
  | .error e =>
      match refreshAccessToken cfg st (some incoming) nowB with
      | (st2, rb) => (st2, .error e, rb)
  | .ok uidA =>
      match refreshCheck cfg st incoming nowB with
      | .error e =>
          match generateAccessAndRefreshToken cfg st uidA nowA with
          | (st1, .error ea) => (st1, .error ea, .error e)
          | (st1, .ok (a, r)) => (st1, .ok ⟨a, some r⟩, .error e)
      | .ok uidB =>
          match generateAccessAndRefreshToken cfg st uidA nowA with
          | (st1, .error ea) =>
              match generateAccessAndRefreshToken cfg st1 uidB nowB with
              | (st2, .error eb) => (st2, .error ea, .error eb)
              | (st2, .ok (a2, r2)) => (st2, .error ea, .ok ⟨a2, some r2⟩)
          | (st1, .ok (a1, r1)) =>
              match generateAccessAndRefreshToken cfg st1 uidB nowB with
              | (st2, .error eb) => (st2, .ok ⟨a1, some r1⟩, .error eb)
              | (st2, .ok (a2, r2)) => (st2, .ok ⟨a1, some r1⟩, .ok ⟨a2, some r2⟩)

/-! ## Task controller (`task.controller.js`) -/

/-- A task document. -/
structure TaskRec where
  id : String
  title : String
  description : Option String
  status : String
  priority : String
  dueDate : String
  userId : Nat
deriving DecidableEq

/-- The task collection of the record store. -/
abbrev TaskStore := List TaskRec

/-- The status whitelist (lines 18, 167). -/
def validStatus (s : String) : Bool :=
  s == "pending" || s == "in-progress" || s == "completed"

/-- The priority whitelist (lines 22, 171). -/
def validPriority (s : String) : Bool :=
  s == "High" || s == "Medium" || s == "Low"

/-- JavaScript truthiness of an optional string field: `undefined` and `""`
are falsy. -/
def strPresent : Option String → Bool
  | some s => s != ""
  | none => false

/-- `getTaskById` (lines 122-144): authentication presence check, task-id
presence check, then `Task.findById` — with no comparison of the task's
`userId` against the caller. -/
def getTaskById (caller : Option Nat) (ts : TaskStore) (taskId : Option String) :
    Except ApiError TaskRec :=
  match caller with
  | none => .error ⟨401, "User not authenticated."⟩
  | some _ =>
      match taskId with
      | none => .error ⟨400, "Task ID is required."⟩
      | some tid =>
          if tid == "" then .error ⟨400, "Task ID is required."⟩
          else
            match ts.find? (fun t => t.id == tid) with
            | none => .error ⟨404, "Task not found."⟩
            | some t => .ok t

/-- The body of `updateTaskById`. -/
structure TaskUpdateBody where
  title : Option String
  description : Option String
  status : Option String
  dueDate : Option String
  priority : Option String
deriving DecidableEq

/-- The update document of `findByIdAndUpdate` (lines 176-186): keys whose
value is `undefined` are stripped from the update, so absent body fields leave
the stored field unchanged — except `status`, sent as `status || "pending"`
and hence always written. -/
def applyTaskUpdate (body : TaskUpdateBody) (t : TaskRec) : TaskRec :=
  { t with
    title := body.title.getD t.title
    description := match body.description with
      | some s => some s
      | none => t.description
    status := match body.status with
      | some s => if s == "" then "pending" else s
      | none => "pending"
    dueDate := body.dueDate.getD t.dueDate
    priority := body.priority.getD t.priority }

/-- `updateTaskById` (lines 147-197): authentication and task-id presence
checks, at-least-one-field and whitelist validations, then
`Task.findByIdAndUpdate` — again with no ownership comparison against the
caller. -/
def updateTaskById (caller : Option Nat) (ts : TaskStore) (taskId : Option String)
    (body : TaskUpdateBody) : TaskStore × Except ApiError TaskRec :=
  match caller with
  | none => (ts, .error ⟨401, "User not authenticated."⟩)
  | some _ =>
      match taskId with
      | none => (ts, .error ⟨400, "Task ID is required."⟩)
      | some tid =>
          if tid == "" then (ts, .error ⟨400, "Task ID is required."⟩)
          else if !strPresent body.title && !strPresent body.dueDate &&
              !strPresent body.priority then
            (ts, .error ⟨400, "At least one field is required to update."⟩)
          else if strPresent body.status && !validStatus (body.status.getD "") then
            (ts, .error ⟨400, "Invalid status value."⟩)
          else if strPresent body.priority && !validPriority (body.priority.getD "") then
            (ts, .error ⟨400, "Invalid priority value."⟩)
          else
            match ts.find? (fun t => t.id == tid) with
            | none => (ts, .error ⟨404, "Task not found."⟩)
            | some t =>
                (ts.map (fun x => if x.id == tid then applyTaskUpdate body x else x),
                 .ok (applyTaskUpdate body t))

/-- `deleteTaskById` (lines 200-217): authentication and task-id presence
checks, then `Task.findByIdAndDelete` with no ownership comparison; the
response is a 200 success whether or not a task with that id existed. -/
def deleteTaskById (caller : Option Nat) (ts : TaskStore) (taskId : Option String) :
    TaskStore × Except ApiError Unit :=
  match caller with
  | none => (ts, .error ⟨401, "User not authenticated."⟩)
  | some _ =>
      match taskId with
      | none => (ts, .error ⟨400, "Task ID is required."⟩)
      | some tid =>
          if tid == "" then (ts, .error ⟨400, "Task ID is required."⟩)
          else (ts.filter (fun t => t.id != tid), .ok ())

/-- `updateTaskStatus` (lines 219-251): the only task-by-id handler that
filters by the caller, via `Task.findOneAndUpdate({ userId: req.user._id, _id:
taskId })`.  An absent `status` in the body is stripped from the update. -/
def updateTaskStatus (caller : Option Nat) (ts : TaskStore) (taskId : String)
    (status : Option String) : TaskStore × Except ApiError TaskRec :=
  match caller with
  | none => (ts, .error ⟨401, "User not authenticated"⟩)
  | some uid =>
      match ts.find? (fun t => t.userId == uid && t.id == taskId) with
      | none => (ts, .error ⟨404, "Task not found."⟩)
      | some t =>
          let setSt := fun (x : TaskRec) =>
            { x with status := status.getD x.status }
          (ts.map (fun x => if x.userId == uid && x.id == taskId then setSt x else x),
           .ok (setSt t))

/-! ## Sample data used by concrete runs -/

/-- A codec configuration: 15-minute access TTL, 10-day refresh TTL. -/
def sampleCfg : CodecConfig := ⟨900, 864000, 7⟩

/-- A refresh token minted for user 1 at time 10. -/
def sampleStoredTok : Token := mint sampleCfg 1 .refresh 10

/-- A logged-in user holding `sampleStoredTok` as the current refresh token. -/
def sampleUser : UserRec :=
  ⟨1, "alice@x.com", "alice", "Alice", hashPassword "secret123", some sampleStoredTok⟩

/-- A task owned by user 42. -/
def sampleTask : TaskRec := ⟨"t1", "Write report", none, "pending", "High", "2026-01-01", 42⟩

/-! ## Helper lemmas about the record-store primitives -/

/-- A user found by id has that id. -/
theorem findById_some_id {st : UserStore} {uid : Nat} {u : UserRec}
    (h : findById st uid = some u) : u.id = uid := by
  have := List.find?_some h
  simpa using this

/-- `find?` by id commutes with an id-preserving map over the store. -/
theorem findById_map (st : UserStore) (g : UserRec → UserRec) (uid : Nat)
    (hg : ∀ u, (g u).id = u.id) :
    findById (st.map g) uid = (findById st uid).map g := by
  induction st with
  | nil => rfl
  | cons u t ih =>
      unfold findById at *
      simp only [List.map_cons, List.find?]
      rw [hg u]
      cases h : (u.id == uid)
      · simpa [h] using ih
      · simp [h]

/-- Updating a document commutes with lookup: the looked-up document is the
mapped one. -/
theorem findById_updateById (st : UserStore) (j uid : Nat) (f : UserRec → UserRec)
    (hf : ∀ u, (f u).id = u.id) :
    findById (updateById st j f) uid =
      (findById st uid).map (fun u => if u.id == j then f u else u) := by
  unfold updateById
  exact findById_map st _ uid (by intro u; by_cases h : u.id = j <;> simp [h, hf])

/-- The id column of the store. -/
def idsOf (st : UserStore) : List Nat := st.map (fun u => u.id)

/-- An id-preserving single-document update leaves the id column unchanged. -/
theorem idsOf_updateById (st : UserStore) (j : Nat) (f : UserRec → UserRec)
    (hf : ∀ u, (f u).id = u.id) : idsOf (updateById st j f) = idsOf st := by
  unfold idsOf updateById
  rw [List.map_map]
  apply List.map_congr_left
  intro u _
  by_cases h : u.id = j <;> simp [h, hf]

/-- `setRefreshToken` does not touch the id. -/
theorem setRefreshToken_id (tok : Option Token) (u : UserRec) :
    (setRefreshToken tok u).id = u.id := rfl

/-- `setPassword` does not touch the id. -/
theorem setPassword_id (p : String) (u : UserRec) :
    (setPassword p u).id = u.id := rfl

/-- `generateAccessAndRefreshToken` leaves the id column unchanged. -/
theorem idsOf_generate (cfg : CodecConfig) (st : UserStore) (uid now : Nat) :
    idsOf (generateAccessAndRefreshToken cfg st uid now).1 = idsOf st := by
  unfold generateAccessAndRefreshToken
  cases h : findById st uid with
  | none => rfl
  | some u => exact idsOf_updateById st uid _ (fun v => rfl)

/-- No session-manager operation changes the id column of the store. -/
theorem idsOf_authStep (cfg : CodecConfig) (st : UserStore) (op : AuthOp) :
    idsOf (authStep cfg st op) = idsOf st := by
  cases op with
  | login uname pw now =>
      simp only [authStep]
      unfold loginUser
      split
      · rfl
      split
      · rfl
      split
      · rfl
      split
      · rfl
      split
      next st2 e heq =>
        have h1 : (generateAccessAndRefreshToken cfg st _ now).1 = st2 :=
          congrArg Prod.fst heq
        rw [← h1]
        exact idsOf_generate ..
      next st2 a r heq =>
        have h1 : (generateAccessAndRefreshToken cfg st _ now).1 = st2 :=
          congrArg Prod.fst heq
        rw [← h1]
        exact idsOf_generate ..
  | refreshOp incoming now =>
      simp only [authStep]
      unfold refreshAccessToken
      split
      · rfl
      split
      · rfl
      split
      next st2 e heq =>
        have h1 : (generateAccessAndRefreshToken cfg st _ now).1 = st2 :=
          congrArg Prod.fst heq
        rw [← h1]
        exact idsOf_generate ..
      next st2 a r heq =>
        have h1 : (generateAccessAndRefreshToken cfg st _ now).1 = st2 :=
          congrArg Prod.fst heq
        rw [← h1]
        exact idsOf_generate ..
  | logoutOp uid =>
      simp only [authStep]
      unfold logoutUser
      split
      · rfl
      · exact idsOf_updateById st uid _ (fun v => rfl)
  | changePw uid o n =>
      simp only [authStep]
      unfold changeUserPassword
      split
      · rfl
      split
      · rfl
      split
      · rfl
      · exact idsOf_updateById st uid _ (fun v => rfl)

/-- No sequence of session-manager operations changes the id column. -/
theorem idsOf_runAuth (cfg : CodecConfig) (st : UserStore) (ops : List AuthOp) :
    idsOf (runAuth cfg st ops) = idsOf st := by
  induction ops generalizing st with
  | nil => rfl
  | cons op rest ih =>
      unfold runAuth at *
      rw [List.foldl_cons, ih, idsOf_authStep]

/-- With pairwise-distinct document ids, a single stored refresh-token field
per identity means at most one token value is accepted for that identity. -/
theorem acceptsRefresh_unique {st : UserStore} {uid : Nat} {t1 t2 : Token}
    (hnd : idsNodup st)
    (h1 : acceptsRefresh st uid t1 = true) (h2 : acceptsRefresh st uid t2 = true) :
    t1 = t2 := by
  unfold acceptsRefresh at h1 h2
  obtain ⟨u1, hu1, hp1⟩ := List.any_eq_true.mp h1
  obtain ⟨u2, hu2, hp2⟩ := List.any_eq_true.mp h2
  simp only [Bool.and_eq_true, beq_iff_eq] at hp1 hp2
  have hid : u1.id = u2.id := by rw [hp1.1, hp2.1]
  have : u1 = u2 := List.inj_on_of_nodup_map hnd hu1 hu2 hid
  have := hp1.2.symm.trans (this ▸ hp2.2)
  exact Option.some.inj this

/-- After clearing the refresh-token field of an identity, no token is
accepted for it. -/
theorem acceptsRefresh_after_clear (st : UserStore) (uid : Nat) (t : Token) :
    acceptsRefresh (updateById st uid (setRefreshToken none)) uid t = false := by
  unfold acceptsRefresh updateById
  rw [List.any_map]
  rw [List.any_eq_false]
  intro u _
  by_cases h : u.id = uid <;> simp [Function.comp, h, setRefreshToken]

/-! ## Claim theorems -/

/-- Claim C5: for every subject, token class, and mint time t0, validating the
token minted at t0 with the same expected class at time t0 (before expiry)
succeeds and returns the same subject unchanged, and validating it at any time
t1 greater than issued_at plus the class TTL fails with Expired. -/
theorem c5_token_roundtrip (cfg : CodecConfig) (s : Nat) (cls : TokenClass) (t0 t1 : Nat)
    (h : t0 + cfg.ttl cls < t1) :
    validate cfg (mint cfg s cls t0) cls t0 = .ok (mint cfg s cls t0)
    ∧ (mint cfg s cls t0).subject = s
    ∧ validate cfg (mint cfg s cls t0) cls t1 = .error .expired := by
  refine ⟨?_, rfl, ?_⟩
  · simp [validate, mint]
  · simp [validate, mint]
    omega

theorem c5_witness :
    validate sampleCfg (mint sampleCfg 3 .access 100) .access 100 =
      .ok (mint sampleCfg 3 .access 100)
    ∧ (mint sampleCfg 3 .access 100).subject = 3
    ∧ validate sampleCfg (mint sampleCfg 3 .access 100) .access 1001 = .error .expired :=
  c5_token_roundtrip sampleCfg 3 .access 100 1001 (by decide)

/-- Claim C8: when the old plaintext verifies against the stored credential
and the new plaintext equals the old one, ChangePassword fails with the NoOp
error (400, same-password message) and the store is left unchanged. -/
theorem c8_change_password_noop (st : UserStore) (uid : Nat)
    (oldPassword newPassword : String) (u : UserRec)
    (hf : findById st uid = some u)
    (hv : isPasswordCorrect u.password oldPassword = true)
    (he : newPassword = oldPassword) :
    changeUserPassword st uid oldPassword newPassword =
      (st, .error ⟨400, "New password cannot be same as old password"⟩) := by
  simp [changeUserPassword, hf, hv, he]

theorem c8_witness :
    changeUserPassword [sampleUser] 1 "secret123" "secret123" =
      ([sampleUser], .error ⟨400, "New password cannot be same as old password"⟩) :=
  c8_change_password_noop [sampleUser] 1 "secret123" "secret123" sampleUser
    (by rfl) (by rfl) rfl

/-- Claim C1, evaluation at the failing input: the second variant of
refreshAccessToken, presented with the valid stored refresh token, succeeds,
replaces the stored token with the newly minted (different) refresh token, but
returns `none` in the response's refresh-token slot — the new refresh token is
never returned to the caller, contradicting the claim's "returns both new
tokens". -/
theorem c1_refreshV2_withholds_new_token :
    refreshAccessTokenV2 sampleCfg [sampleUser] (some sampleStoredTok) 50 =
      (updateById [sampleUser] 1 (setRefreshToken (some (mint sampleCfg 1 .refresh 50))),
       .ok ⟨mint sampleCfg 1 .access 50, none⟩)
    ∧ mint sampleCfg 1 .refresh 50 ≠ sampleStoredTok := by
  constructor
  · rfl
  · decide

/-- Claim C7, evaluation at the failing input: the first variant of
registerUser on a fresh valid registration creates the account and then fails
with the 500 ReferenceError ("accessToken is not defined") instead of
returning the created identity's public profile. -/
theorem c7_registerV1_internal_error_after_create :
    registerUserV1 [] 5 ⟨some "a@x.com", some "Alice", some "Alice A", some "secret123"⟩ =
      ([⟨5, "a@x.com", "alice", "Alice A", hashPassword "secret123", none⟩],
       .error ⟨500, "accessToken is not defined"⟩) := by
  decide

/-- Claim C3 counterexample: a Login for a non-existent account and a Login
for an existing account with a wrong password both fail with status 401 but
with different messages, so the observable error values are not identical. -/
theorem c3_login_errors_differ :
    (loginUser sampleCfg [sampleUser] "bob" "secret123" 0).2 =
      .error ⟨401, "Invalid username or password"⟩
    ∧ (loginUser sampleCfg [sampleUser] "alice" "wrongpw" 0).2 =
      .error ⟨401, "Invalid Credentials"⟩
    ∧ (⟨401, "Invalid username or password"⟩ : ApiError) ≠ ⟨401, "Invalid Credentials"⟩ := by
  refine ⟨by decide, by decide, by decide⟩

/-- Claim C3 amended: both Login failure cases return an error of the same
kind (HTTP 401), but the observable error values differ — "Invalid username or
password" when the account does not exist versus "Invalid Credentials" when
the password does not verify. -/
theorem c3_login_failures_same_status (cfg : CodecConfig) (stA stB : UserStore)
    (unameA pwA unameB pwB : String) (nowA nowB : Nat) (uB : UserRec)
    (hA1 : trimStr unameA ≠ "") (hA2 : trimStr pwA ≠ "")
    (hA : findByUsername stA unameA = none)
    (hB1 : trimStr unameB ≠ "") (hB2 : trimStr pwB ≠ "")
    (hBf : findByUsername stB unameB = some uB)
    (hBv : isPasswordCorrect uB.password pwB = false) :
    (loginUser cfg stA unameA pwA nowA).2 = .error ⟨401, "Invalid username or password"⟩
    ∧ (loginUser cfg stB unameB pwB nowB).2 = .error ⟨401, "Invalid Credentials"⟩ := by
  constructor
  · have h1 : ¬(unameA = "" ∨ pwA = "") := by
      intro h
      rcases h with h | h
      · exact hA1 (by rw [h]; decide)
      · exact hA2 (by rw [h]; decide)
    simp [loginUser, h1, hA1, hA2, hA]
  · have h1 : ¬(unameB = "" ∨ pwB = "") := by
      intro h
      rcases h with h | h
      · exact hB1 (by rw [h]; decide)
      · exact hB2 (by rw [h]; decide)
    simp [loginUser, h1, hB1, hB2, hBf, hBv]

theorem c3_amended_witness :
    (loginUser sampleCfg [sampleUser] "bob" "secret123" 0).2 =
      .error ⟨401, "Invalid username or password"⟩
    ∧ (loginUser sampleCfg [sampleUser] "alice" "wrongpw" 0).2 =
      .error ⟨401, "Invalid Credentials"⟩ :=
  c3_login_failures_same_status sampleCfg [sampleUser] [sampleUser]
    "bob" "secret123" "alice" "wrongpw" 0 0 sampleUser
    (by decide) (by decide) (by decide) (by decide) (by decide) (by decide) (by decide)


/-- Clearing the refresh-token field twice is the same as clearing it once. -/
theorem updateById_set_idem (st : UserStore) (uid : Nat) (tok : Option Token) :
    updateById (updateById st uid (setRefreshToken tok)) uid (setRefreshToken tok)
      = updateById st uid (setRefreshToken tok) := by
  unfold updateById
  rw [List.map_map]
  apply List.map_congr_left
  intro u _
  by_cases h : u.id = uid <;> simp [Function.comp, h, setRefreshToken]

/-- Claim C6: Logout is idempotent — for an existing identity, a second
Logout leaves exactly the state of the first and succeeds, and after Logout no
refresh token is accepted for the identity. -/
theorem c6_logout_idempotent (st : UserStore) (uid : Nat) (u : UserRec) (t3 : Token)
    (hf : findById st uid = some u) :
    logoutUser ((logoutUser st uid).1) uid = ((logoutUser st uid).1, .ok ())
    ∧ acceptsRefresh ((logoutUser st uid).1) uid t3 = false := by
  have h1 : logoutUser st uid = (updateById st uid (setRefreshToken none), .ok ()) := by
    simp [logoutUser, hf]
  constructor
  · rw [h1]
    have hid : u.id = uid := findById_some_id hf
    have hf2 : findById (updateById st uid (setRefreshToken none)) uid
        = some (setRefreshToken none u) := by
      rw [findById_updateById st uid uid (setRefreshToken none) (fun v => rfl), hf]
      simp [hid]
    unfold logoutUser
    rw [hf2]
    rw [updateById_set_idem]
  · rw [h1]
    exact acceptsRefresh_after_clear st uid t3

theorem c6_witness :
    logoutUser ((logoutUser [sampleUser] 1).1) 1 = ((logoutUser [sampleUser] 1).1, .ok ())
    ∧ acceptsRefresh ((logoutUser [sampleUser] 1).1) 1 sampleStoredTok = false :=
  c6_logout_idempotent [sampleUser] 1 sampleUser sampleStoredTok (by rfl)

/-- Claim C10: the required-fields validation of Register rejects only fields
that are present and trim to the empty string; a body whose present fields all
trim non-empty — even with fields absent — is not rejected with "Please fill
all the fields" and proceeds to the duplicate check and creation stages. -/
theorem c10_absent_fields_pass_validation (st : UserStore) (freshId : Nat)
    (body : RegisterBody)
    (habs : body.email = none ∨ body.username = none ∨ body.fullName = none ∨
      body.password = none)
    (hblank : ∀ s : String, (body.email = some s ∨ body.username = some s ∨
      body.fullName = some s ∨ body.password = some s) → trimStr s ≠ "") :
    registerUser st freshId body = registerAfterValidation st freshId body
    ∧ (registerUser st freshId body).2 ≠ .error ⟨400, "Please fill all the fields"⟩ := by
  have hv : registerValidationFails body = false := by
    unfold registerValidationFails
    simp only [List.any_cons, List.any_nil, Bool.or_false, Bool.or_eq_false_iff]
    refine ⟨?_, ?_, ?_, ?_⟩
    · cases he : body.email with
      | none => rfl
      | some s => simpa [fieldBlank] using hblank s (Or.inl he)
    · cases he : body.username with
      | none => rfl
      | some s => simpa [fieldBlank] using hblank s (Or.inr (Or.inl he))
    · cases he : body.fullName with
      | none => rfl
      | some s => simpa [fieldBlank] using hblank s (Or.inr (Or.inr (Or.inl he)))
    · cases he : body.password with
      | none => rfl
      | some s => simpa [fieldBlank] using hblank s (Or.inr (Or.inr (Or.inr he)))
  have h2 : registerUser st freshId body = registerAfterValidation st freshId body := by
    simp [registerUser, hv]
  refine ⟨h2, ?_⟩
  rw [h2]
  unfold registerAfterValidation
  split
  · intro hcontra
    exact absurd (Except.error.inj hcontra) (by decide)
  split
  · simp
  · intro hcontra
    exact absurd (Except.error.inj hcontra) (by decide)

theorem c10_witness :
    registerUser [] 11 ⟨none, some "alice", some "A", some "p"⟩ =
      registerAfterValidation [] 11 ⟨none, some "alice", some "A", some "p"⟩
    ∧ (registerUser [] 11 ⟨none, some "alice", some "A", some "p"⟩).2 ≠
      .error ⟨400, "Please fill all the fields"⟩ :=
  c10_absent_fields_pass_validation [] 11 ⟨none, some "alice", some "A", some "p"⟩
    (Or.inl rfl)
    (fun s h => by
      rcases h with h | h | h | h
      · exact Option.noConfusion h
      · injection h with h2
        subst h2
        decide
      · injection h with h2
        subst h2
        decide
      · injection h with h2
        subst h2
        decide)

/-- Claim C9: the task-by-ID operations perform no ownership check — for any
authenticated caller and any existing task owned by a different user,
getTaskById, updateTaskById and deleteTaskById succeed and return, modify, or
delete the task, and their results are independent of which authenticated user
calls them; only updateTaskStatus filters by the caller's user id and fails
with 404 for a non-owner. -/
theorem c9_no_ownership_check (ts : TaskStore) (t : TaskRec) (tid : String) (u1 u2 : Nat)
    (body : TaskUpdateBody) (statusArg : Option String)
    (hfind : ts.find? (fun x => x.id == tid) = some t)
    (howner : t.userId ≠ u1)
    (htid : tid ≠ "")
    (hbody : (strPresent body.title || strPresent body.dueDate ||
      strPresent body.priority) = true)
    (hbs : strPresent body.status = true → validStatus (body.status.getD "") = true)
    (hbp : strPresent body.priority = true → validPriority (body.priority.getD "") = true)
    (hmine : ts.all (fun x => !(x.userId == u1 && x.id == tid)) = true) :
    getTaskById (some u1) ts (some tid) = .ok t
    ∧ getTaskById (some u1) ts (some tid) = getTaskById (some u2) ts (some tid)
    ∧ (updateTaskById (some u1) ts (some tid) body).2 = .ok (applyTaskUpdate body t)
    ∧ updateTaskById (some u1) ts (some tid) body
        = updateTaskById (some u2) ts (some tid) body
    ∧ deleteTaskById (some u1) ts (some tid) = (ts.filter (fun x => x.id != tid), .ok ())
    ∧ deleteTaskById (some u1) ts (some tid) = deleteTaskById (some u2) ts (some tid)
    ∧ (updateTaskStatus (some u1) ts tid statusArg).2 = .error ⟨404, "Task not found."⟩ := by
  have htid2 : (tid == "") = false := by simpa using htid
  have hval : (!strPresent body.title && !strPresent body.dueDate &&
      !strPresent body.priority) = false := by
    revert hbody
    cases strPresent body.title <;> cases strPresent body.dueDate <;>
      cases strPresent body.priority <;> simp
  have hnone : ts.find? (fun x => x.userId == u1 && x.id == tid) = none := by
    rw [List.find?_eq_none]
    intro x hx
    have h3 := (List.all_eq_true.mp hmine) x hx
    simp at h3 ⊢
    tauto
  refine ⟨?_, rfl, ?_, rfl, ?_, rfl, ?_⟩
  · simp [getTaskById, htid2, hfind]
  · cases hs : strPresent body.status <;> cases ht : strPresent body.title <;>
      cases hd : strPresent body.dueDate <;> cases hp2 : strPresent body.priority <;>
      simp_all [updateTaskById, htid2, hfind]
  · simp [deleteTaskById, htid2]
  · simp [updateTaskStatus, hnone]

theorem c9_witness :
    getTaskById (some 1) [sampleTask] (some "t1") = .ok sampleTask
    ∧ getTaskById (some 1) [sampleTask] (some "t1")
        = getTaskById (some 2) [sampleTask] (some "t1")
    ∧ (updateTaskById (some 1) [sampleTask] (some "t1")
        ⟨some "New title", none, none, none, none⟩).2
        = .ok (applyTaskUpdate ⟨some "New title", none, none, none, none⟩ sampleTask)
    ∧ updateTaskById (some 1) [sampleTask] (some "t1")
        ⟨some "New title", none, none, none, none⟩
        = updateTaskById (some 2) [sampleTask] (some "t1")
          ⟨some "New title", none, none, none, none⟩
    ∧ deleteTaskById (some 1) [sampleTask] (some "t1")
        = ([sampleTask].filter (fun x => x.id != "t1"), .ok ())
    ∧ deleteTaskById (some 1) [sampleTask] (some "t1")
        = deleteTaskById (some 2) [sampleTask] (some "t1")
    ∧ (updateTaskStatus (some 1) [sampleTask] "t1" (some "completed")).2
        = .error ⟨404, "Task not found."⟩ :=
  c9_no_ownership_check [sampleTask] sampleTask "t1" 1 2
    ⟨some "New title", none, none, none, none⟩ (some "completed")
    (by decide) (by decide) (by decide) (by decide) (by decide) (by decide) (by decide)


/-- A successful validation returns the token itself, and implies the
signature, expiry, and class checks all passed. -/
theorem validate_ok {cfg : CodecConfig} {tok d : Token} {c : TokenClass} {now : Nat}
    (h : validate cfg tok c now = .ok d) :
    d = tok ∧ tok.key = cfg.signingKey ∧ now ≤ tok.expires_at ∧ tok.tclass = c := by
  unfold validate at h
  split at h
  · exact Except.noConfusion h
  next hk =>
    split at h
    · exact Except.noConfusion h
    next he =>
      split at h
      · exact Except.noConfusion h
      next hc =>
        refine ⟨(Except.ok.inj h).symm, not_not.mp hk, by omega, not_not.mp hc⟩

/-- A passed read-and-check phase pins down everything the write phase uses:
the token validated as a refresh token for its subject, the subject's document
was found, and its stored refresh token equals the presented one. -/
theorem refreshCheck_ok {cfg : CodecConfig} {st : UserStore} {p : Token} {now uid : Nat}
    (h : refreshCheck cfg st p now = .ok uid) :
    validate cfg p .refresh now = .ok p
    ∧ ∃ u, findById st p.subject = some u ∧ u.id = p.subject
        ∧ u.refreshToken = some p ∧ uid = u.id := by
  unfold refreshCheck at h
  cases hv : validate cfg p .refresh now with
  | error e =>
      rw [hv] at h
      cases e <;> exact Except.noConfusion h
  | ok d =>
      have hd : d = p := (validate_ok hv).1
      subst hd
      rw [hv] at h
      dsimp only at h
      refine ⟨rfl, ?_⟩
      cases hf : findById st d.subject with
      | none =>
          rw [hf] at h
          dsimp only at h
          exact Except.noConfusion h
      | some u =>
          rw [hf] at h
          dsimp only at h
          by_cases hne : some d = u.refreshToken
          · rw [if_neg (not_not_intro hne)] at h
            exact ⟨u, rfl, findById_some_id hf, hne.symm, (Except.ok.inj h).symm⟩
          · rw [if_pos hne] at h
            exact Except.noConfusion h

/-- A successful Refresh call replaces the stored refresh token of the
presented token's subject with the freshly minted one and returns the new
pair. -/
theorem refresh_ok_shape {cfg : CodecConfig} {st st2 : UserStore} {p : Token}
    {now : Nat} {rr : RefreshResponse}
    (h : refreshAccessToken cfg st (some p) now = (st2, .ok rr)) :
    st2 = updateById st p.subject
        (setRefreshToken (some (mint cfg p.subject .refresh now)))
    ∧ rr = ⟨mint cfg p.subject .access now, some (mint cfg p.subject .refresh now)⟩
    ∧ validate cfg p .refresh now = .ok p
    ∧ ∃ u, findById st p.subject = some u ∧ u.refreshToken = some p := by
  unfold refreshAccessToken at h
  dsimp only at h
  cases hc : refreshCheck cfg st p now with
  | error e =>
      rw [hc] at h
      simp at h
  | ok uid =>
      rw [hc] at h
      dsimp only at h
      obtain ⟨hv, u, hfu, huid, hutok, huideq⟩ := refreshCheck_ok hc
      have huid2 : uid = p.subject := by rw [huideq, huid]
      subst huid2
      unfold generateAccessAndRefreshToken at h
      rw [hfu] at h
      simp only [Prod.mk.injEq] at h
      obtain ⟨hst2, hr⟩ := h
      refine ⟨hst2.symm, ?_, hv, u, hfu, hutok⟩
      have := Except.ok.inj hr
      exact this.symm

/-- Claim C4 amended: the reuse check and the store write of Refresh are not
one atomic compare-and-swap, and interleaved calls can both succeed (see the
counterexample); under sequential execution rotation is single-use — after one
successful Refresh, presenting the same (still unexpired) token again fails
with 401 "Refresh token is expired or used" and leaves the state unchanged. -/
theorem c4_sequential_single_use (cfg : CodecConfig) (st st1 : UserStore) (p : Token)
    (nowA nowB : Nat) (r1 : RefreshResponse)
    (h1 : refreshAccessToken cfg st (some p) nowA = (st1, .ok r1))
    (hdiff : mint cfg p.subject .refresh nowA ≠ p)
    (hexp : nowB ≤ p.expires_at) :
    refreshAccessToken cfg st1 (some p) nowB =
      (st1, .error ⟨401, "Refresh token is expired or used"⟩) := by
  obtain ⟨hst1, hr1, hv, u, hfu, hutok⟩ := refresh_ok_shape h1
  obtain ⟨hd, hkey, hne, hcls⟩ := validate_ok hv
  have hvB : validate cfg p .refresh nowB = .ok p := by
    unfold validate
    rw [if_neg (by simp [hkey]), if_neg (by omega), if_neg (by simp [hcls])]
  have hf1 : findById st1 p.subject
      = some (setRefreshToken (some (mint cfg p.subject .refresh nowA)) u) := by
    rw [hst1, findById_updateById st p.subject p.subject
      (setRefreshToken (some (mint cfg p.subject .refresh nowA))) (fun v => rfl), hfu]
    have hu : u.id = p.subject := findById_some_id hfu
    simp [hu]
  have hchk : refreshCheck cfg st1 p nowB
      = .error ⟨401, "Refresh token is expired or used"⟩ := by
    unfold refreshCheck
    rw [hvB]
    dsimp only
    rw [hf1]
    dsimp only
    have : some p ≠ (setRefreshToken (some (mint cfg p.subject .refresh nowA)) u).refreshToken := by
      simp [setRefreshToken]
      exact fun hcontra => hdiff hcontra.symm
    rw [if_pos this]
  unfold refreshAccessToken
  dsimp only
  rw [hchk]

theorem c4_amended_witness :
    refreshAccessToken sampleCfg
      (updateById [sampleUser] 1 (setRefreshToken (some (mint sampleCfg 1 .refresh 20))))
      (some sampleStoredTok) 25 =
      (updateById [sampleUser] 1 (setRefreshToken (some (mint sampleCfg 1 .refresh 20))),
       .error ⟨401, "Refresh token is expired or used"⟩) :=
  c4_sequential_single_use sampleCfg [sampleUser]
    (updateById [sampleUser] 1 (setRefreshToken (some (mint sampleCfg 1 .refresh 20))))
    sampleStoredTok 20 25
    ⟨mint sampleCfg 1 .access 20, some (mint sampleCfg 1 .refresh 20)⟩
    (by decide) (by decide) (by decide)

/-- Claim C4 counterexample: two Refresh calls presenting the same stored
token, interleaved so that both run the read-and-check phase before either
writes, BOTH return successful token pairs — refuting "at most one succeeds"
for concurrent execution. -/
theorem c4_interleaved_both_succeed :
    (refreshInterleaved sampleCfg [sampleUser] sampleStoredTok 20 25).2.1 =
      .ok ⟨mint sampleCfg 1 .access 20, some (mint sampleCfg 1 .refresh 20)⟩
    ∧ (refreshInterleaved sampleCfg [sampleUser] sampleStoredTok 20 25).2.2 =
      .ok ⟨mint sampleCfg 1 .access 25, some (mint sampleCfg 1 .refresh 25)⟩ := by
  constructor <;> rfl


/-- Operation sequences preserve distinctness of document ids. -/
theorem idsNodup_runAuth (cfg : CodecConfig) (st : UserStore) (ops : List AuthOp)
    (h : idsNodup st) : idsNodup (runAuth cfg st ops) := by
  unfold idsNodup at *
  have h2 : idsOf (runAuth cfg st ops) = idsOf st := idsOf_runAuth ..
  unfold idsOf at h2
  rw [h2]
  exact h

/-- A successful Login call stores the returned refresh token on the found
user's document. -/
theorem login_ok_shape {cfg : CodecConfig} {st st2 : UserStore} {uname pw : String}
    {now : Nat} {ar : AuthResult} {uL : UserRec}
    (hf : findByUsername st uname = some uL)
    (h : loginUser cfg st uname pw now = (st2, .ok ar)) :
    st2 = updateById st uL.id (setRefreshToken (some (mint cfg uL.id .refresh now)))
    ∧ ar = ⟨mint cfg uL.id .access now, mint cfg uL.id .refresh now⟩ := by
  unfold loginUser at h
  split at h
  · simp at h
  split at h
  · simp at h
  rw [hf] at h
  dsimp only at h
  split at h
  · simp at h
  unfold generateAccessAndRefreshToken at h
  cases hg : findById st uL.id with
  | none =>
      rw [hg] at h
      dsimp only at h
      simp at h
  | some u =>
      rw [hg] at h
      dsimp only at h
      simp only [Prod.mk.injEq] at h
      obtain ⟨hst2, hr⟩ := h
      exact ⟨hst2.symm, (Except.ok.inj hr).symm⟩

/-- Claim C2: after any sequence of Login, Refresh, Logout and ChangePassword
operations on a store with distinct document ids, at most one refresh token is
accepted per identity (any two accepted tokens are equal); a successful Login
or Refresh overwrites the single stored refresh-token field of the affected
identity with the newly minted token, and Logout clears it, after which no
token is accepted for that identity. -/
theorem c2_single_refresh_token
    (cfg : CodecConfig) (st0 stL stR stO : UserStore) (ops : List AuthOp)
    (uid uidO : Nat) (t1 t2 t3 : Token) (tokR : Token)
    (unameL pwL : String) (nowL nowR : Nat)
    (stL2 stR2 : UserStore) (ar : AuthResult) (rr : RefreshResponse) (uL : UserRec)
    (h0 : idsNodup st0)
    (h1 : acceptsRefresh (runAuth cfg st0 ops) uid t1 = true)
    (h2 : acceptsRefresh (runAuth cfg st0 ops) uid t2 = true)
    (hLf : findByUsername stL unameL = some uL)
    (hL : loginUser cfg stL unameL pwL nowL = (stL2, .ok ar))
    (hR : refreshAccessToken cfg stR (some tokR) nowR = (stR2, .ok rr))
    (hO : findById stO uidO ≠ none) :
    t1 = t2
    ∧ stL2 = updateById stL uL.id (setRefreshToken (some ar.refreshToken))
    ∧ ar.refreshToken = mint cfg uL.id .refresh nowL
    ∧ stR2 = updateById stR tokR.subject
        (setRefreshToken (some (mint cfg tokR.subject .refresh nowR)))
    ∧ rr.refreshToken = some (mint cfg tokR.subject .refresh nowR)
    ∧ (logoutUser stO uidO).1 = updateById stO uidO (setRefreshToken none)
    ∧ acceptsRefresh ((logoutUser stO uidO).1) uidO t3 = false := by
  obtain ⟨hstL2, har⟩ := login_ok_shape hLf hL
  obtain ⟨hstR2, hrr, _, _⟩ := refresh_ok_shape hR
  have hlo : (logoutUser stO uidO).1 = updateById stO uidO (setRefreshToken none) := by
    unfold logoutUser
    cases hfo : findById stO uidO with
    | none => exact absurd hfo hO
    | some u => rfl
  refine ⟨acceptsRefresh_unique (idsNodup_runAuth cfg st0 ops h0) h1 h2,
    ?_, ?_, hstR2, ?_, hlo, ?_⟩
  · rw [hstL2, har]
  · rw [har]
  · rw [hrr]
  · rw [hlo]
    exact acceptsRefresh_after_clear stO uidO t3

theorem c2_witness :
    sampleStoredTok = sampleStoredTok
    ∧ updateById [sampleUser] 1 (setRefreshToken (some (mint sampleCfg 1 .refresh 30)))
        = updateById [sampleUser] sampleUser.id
          (setRefreshToken (some (AuthResult.refreshToken
            ⟨mint sampleCfg 1 .access 30, mint sampleCfg 1 .refresh 30⟩)))
    ∧ AuthResult.refreshToken
        ⟨mint sampleCfg 1 .access 30, mint sampleCfg 1 .refresh 30⟩
        = mint sampleCfg sampleUser.id .refresh 30
    ∧ updateById [sampleUser] 1 (setRefreshToken (some (mint sampleCfg 1 .refresh 20)))
        = updateById [sampleUser] sampleStoredTok.subject
          (setRefreshToken (some (mint sampleCfg sampleStoredTok.subject .refresh 20)))
    ∧ RefreshResponse.refreshToken
        ⟨mint sampleCfg 1 .access 20, some (mint sampleCfg 1 .refresh 20)⟩
        = some (mint sampleCfg sampleStoredTok.subject .refresh 20)
    ∧ (logoutUser [sampleUser] 1).1 = updateById [sampleUser] 1 (setRefreshToken none)
    ∧ acceptsRefresh ((logoutUser [sampleUser] 1).1) 1 sampleStoredTok = false :=
  c2_single_refresh_token sampleCfg [sampleUser] [sampleUser] [sampleUser] [sampleUser]
    [] 1 1 sampleStoredTok sampleStoredTok sampleStoredTok sampleStoredTok
    "alice" "secret123" 30 20
    (updateById [sampleUser] 1 (setRefreshToken (some (mint sampleCfg 1 .refresh 30))))
    (updateById [sampleUser] 1 (setRefreshToken (some (mint sampleCfg 1 .refresh 20))))
    ⟨mint sampleCfg 1 .access 30, mint sampleCfg 1 .refresh 30⟩
    ⟨mint sampleCfg 1 .access 20, some (mint sampleCfg 1 .refresh 20)⟩
    sampleUser
    (by unfold idsNodup; decide) (by decide) (by decide) (by decide) (by decide)
    (by decide) (by decide)


end TaskMgmt
